import Mathlib

/-!
Shallow embedding of the OSC midi/keystroke controller
(src/osc_transport.py and src/osc_to_midi.py).

Conventions of the embedding:
* Python byte buffers are `List Nat` (each element a byte value 0..255).
* Python strings are `List Char` (named `PyStr`); byte-to-string decoding
  maps each byte to the character with that code point, which coincides
  with Python UTF-8 decoding on ASCII inputs (all inputs exercised here
  are ASCII).
* Python numbers reaching the handlers are `ℚ`: decoded int32 arguments
  embed exactly, and decoded float32 values are dyadic rationals, also
  exact. Python `int()` truncation toward zero is `pyTrunc`.
* A handler that sends to the actuator returns `some`/`sent` carrying the
  effect descriptor; a handler that performs no send returns `none` (or a
  dedicated no-send constructor). Totality of the Lean functions models
  absence of unhandled exceptions.
-/

/-- Python strings, modelled as their character sequences. -/
abbrev PyStr := List Char

/-- Coerce a Lean string literal to the `PyStr` representation. -/
def pyStr (s : String) : PyStr := s.toList

/-- Python `str.split(sep="/")`: split on every slash, keeping empty pieces
(so the result is never the empty list). -/
def splitSlash : List Char → List (List Char)
  | [] => [[]]
  | c :: cs =>
    let rest := splitSlash cs
    if c = '/' then [] :: rest
    else
      match rest with
      | [] => [[c]]
      | r :: rs => (c :: r) :: rs

/-- Python `address.split(sep="/")[-1]`: the last path segment. -/
def lastSegment (address : PyStr) : PyStr :=
  (splitSlash address).getLastD []

/-- Value of a decimal digit character, `none` for a non-digit. -/
def digitVal (c : Char) : Option Nat :=
  if '0' ≤ c ∧ c ≤ '9' then some (c.toNat - 48) else none

def parseDigitsAux : List Char → Nat → Option Nat
  | [], acc => some acc
  | c :: cs, acc =>
    match digitVal c with
    | some d => parseDigitsAux cs (acc * 10 + d)
    | none => none

/-- Parse a nonempty all-digit string as a natural number. -/
def parseDigits (cs : List Char) : Option Nat :=
  if cs = [] then none else parseDigitsAux cs 0

/-- Python `int(s)` on a string: optional sign followed by decimal digits,
`none` when the string does not parse as an integer. (Surrounding
whitespace and underscore separators, which CPython also accepts, are not
modelled; no input exercised here uses them.) -/
def pyInt (s : PyStr) : Option Int :=
  match s with
  | '-' :: rest => (parseDigits rest).map (fun n => -(n : Int))
  | '+' :: rest => (parseDigits rest).map (fun n => (n : Int))
  | _ => (parseDigits s).map (fun n => (n : Int))

/-- Python `int(x)` on a number: truncation toward zero. -/
def pyTrunc (q : ℚ) : Int := if 0 ≤ q then q.floor else q.ceil

namespace OscTransport

/-! Embedding of src/osc_transport.py (keystroke backend). -/

/-- `TRANSPORT_MAP`: OSC action key to (key, with-command-modifier). The
marker key is the quote character, written by code point. -/
def TRANSPORT_MAP : List (PyStr × (PyStr × Bool)) :=
  [ (pyStr "record", (pyStr "r", false)),
    (pyStr "play", (pyStr "space", false)),
    (pyStr "stop", (pyStr ".", false)),
    (pyStr "rewind", (pyStr ",", false)),
    (pyStr "undo", (pyStr "z", true)),
    (pyStr "loop", (pyStr "c", false)),
    (pyStr "click", (pyStr "k", false)),
    (pyStr "marker", (pyStr "\x27", false)),
    (pyStr "prevMarker", (pyStr ",", true)),
    (pyStr "nextMarker", (pyStr ".", true)),
    (pyStr "save", (pyStr "s", true)) ]

/-- Python `data.find(b"\x00", offset)`: index of the first NUL byte at
position `offset` or later, `none` when there is none (Python returns -1). -/
def findNul (data : List Nat) (offset : Nat) : Option Nat :=
  ((data.drop offset).findIdx? (fun b => b == 0)).map (fun i => offset + i)

/-- Padding added after the NUL terminator of an OSC string of length
`len`: `4 - ((len + 1) % 4)`, normalized so that a result of 4 becomes 0. -/
def oscPad (len : Nat) : Nat :=
  if 4 - ((len + 1) % 4) = 4 then 0 else 4 - ((len + 1) % 4)

/-- `parse_osc_string(data, offset)`: scan for the NUL terminator; on
failure return `(none, offset)` unchanged, otherwise the decoded string
and the offset advanced past string, NUL and padding. -/
def parse_osc_string (data : List Nat) (offset : Nat) : Option PyStr × Nat :=
  match findNul data offset with
  | none => (none, offset)
  | some endPos =>
      (some (((data.drop offset).take (endPos - offset)).map Char.ofNat),
       endPos + 1 + oscPad (endPos - offset))

/-- Big-endian 32-bit word starting at `offset` (`struct.unpack(">...")`
byte order). -/
def word32be (data : List Nat) (offset : Nat) : Nat :=
  (data.getD offset 0) * 16777216 + (data.getD (offset + 1) 0) * 65536 +
    (data.getD (offset + 2) 0) * 256 + data.getD (offset + 3) 0

/-- Big-endian signed 32-bit integer (two-complement) at `offset`. -/
def int32be (data : List Nat) (offset : Nat) : Int :=
  let w := word32be data offset
  if w < 2 ^ 31 then (w : Int) else (w : Int) - 2 ^ 32

/-- Decoded OSC argument: a signed 32-bit integer, or a 32-bit float
carried by its big-endian IEEE-754 bit pattern. -/
inductive OscArg
  | Int32 (val : Int)
  | Float32 (bits : Nat)
deriving DecidableEq

/-- Argument loop of `parse_osc_message`: walk the type-tag characters
(after the comma); tag `i` reads 4 bytes as a signed big-endian int32 when
available, tag `f` reads 4 bytes as a big-endian float32, any other tag
reads nothing; a tag whose 4 bytes are not available appends nothing and
leaves the offset unchanged. -/
def parseArgs : List Char → List Nat → Nat → List OscArg × Nat
  | [], _, offset => ([], offset)
  | t :: ts, data, offset =>
    if t = 'i' then
      if offset + 4 ≤ data.length then
        (OscArg.Int32 (int32be data offset) :: (parseArgs ts data (offset + 4)).1,
         (parseArgs ts data (offset + 4)).2)
      else parseArgs ts data offset
    else if t = 'f' then
      if offset + 4 ≤ data.length then
        (OscArg.Float32 (word32be data offset) :: (parseArgs ts data (offset + 4)).1,
         (parseArgs ts data (offset + 4)).2)
      else parseArgs ts data offset
    else parseArgs ts data offset

/-- `parse_osc_message(data)`: address, then optional type tag, then
arguments. `none` models the `(None, None)` failure return. -/
def parse_osc_message (data : List Nat) : Option (PyStr × List OscArg) :=
  match parse_osc_string data 0 with
  | (none, _) => none
  | (some address, offset) =>
    if address = [] ∨ ¬ (pyStr "/").isPrefixOf address then none
    else if data.length ≤ offset then some (address, [])
    else
      match parse_osc_string data offset with
      | (none, _) => some (address, [])
      | (some typeTag, offset2) =>
        if typeTag = [] ∨ ¬ (pyStr ",").isPrefixOf typeTag then some (address, [])
        else some (address, (parseArgs typeTag.tail data offset2).1)

/-- `handle_transport(action, value)`: look the action up in
`TRANSPORT_MAP` and fire the keystroke only when `value > 0`; `some`
carries the keystroke sent to the actuator, `none` means no actuator
call. -/
def handle_transport (action : PyStr) (value : ℚ) : Option (PyStr × Bool) :=
  match TRANSPORT_MAP.lookup action with
  | none => none
  | some eff => if 0 < value then some eff else none

/-- Outcome of one dispatch-loop iteration on a decoded message. -/
inductive DispatchResult
  | keystroke (key : PyStr) (withCmd : Bool)
  | transportNoFire
  | unhandled
deriving DecidableEq

/-- Dispatch step of `main` on a decoded `(address, args)`: addresses
starting with `/transport/` take the last path segment as action and the
first argument (default 127 when there are no arguments) as value; other
addresses are only logged. -/
def dispatch (address : PyStr) (args : List ℚ) : DispatchResult :=
  if (pyStr "/transport/").isPrefixOf address then
    match handle_transport (lastSegment address) (args.headD 127) with
    | some eff => DispatchResult.keystroke eff.1 eff.2
    | none => DispatchResult.transportNoFire
  else DispatchResult.unhandled

end OscTransport

namespace OscToMidi

/-! Embedding of src/osc_to_midi.py (MIDI backend). Handlers receive the
address and the already-decoded numeric arguments from the OSC dispatcher;
the `midi_out` handle is assumed open (its absence only suppresses sends). -/

/-- A mido control-change message as constructed by the handlers. -/
structure MidiCC where
  channel : Int
  control : Int
  value : Int
deriving DecidableEq

/-- `transport_cc`: transport action key to controller number. -/
def transport_cc : List (PyStr × Nat) :=
  [ (pyStr "record", 116),
    (pyStr "play", 117),
    (pyStr "stop", 118),
    (pyStr "rewind", 119),
    (pyStr "undo", 120),
    (pyStr "loop", 121),
    (pyStr "click", 122),
    (pyStr "marker", 123),
    (pyStr "prevMarker", 124),
    (pyStr "nextMarker", 125),
    (pyStr "save", 126) ]

/-- Model of constructing `mido.Message("control_change", ...)`: the
library (an external dependency, modelled from its documented validation,
which also matches the collaborator interface ranges of the spec) checks
every field against the MIDI ranges at construction time, channel 0..15
and controller/value 0..127, and raises ValueError on a violation,
modelled as `none`. -/
def midoMessageCC (channel control value : Int) : Option MidiCC :=
  if 0 ≤ channel ∧ channel ≤ 15 ∧ 0 ≤ control ∧ control ≤ 127
      ∧ 0 ≤ value ∧ value ≤ 127 then
    some ⟨channel, control, value⟩
  else none

/-- Outcome of the MIDI-backend `handle_transport`: a sent control-change,
a plain return without a send (no arguments, or an action missing from the
table), or an uncaught ValueError raised by the message constructor when
the value is outside 0..127 (nothing is sent then either). -/
inductive TransportResult
  | sent (msg : MidiCC)
  | noSend
  | raised
deriving DecidableEq

/-- `handle_transport(address, *args)` of the MIDI backend: with no
arguments return early, otherwise take the last address segment as action,
truncate the first argument to an int, and send the mapped control-change.
There is no gating on the value; a value outside 0..127 makes the message
constructor raise, and the exception is not caught in this handler. -/
def handle_transport (address : PyStr) (args : List ℚ) : TransportResult :=
  match args with
  | [] => TransportResult.noSend
  | v :: _ =>
    match transport_cc.lookup (lastSegment address) with
    | none => TransportResult.noSend
    | some cc =>
      match midoMessageCC 0 (cc : Int) (pyTrunc v) with
      | some msg => TransportResult.sent msg
      | none => TransportResult.raised

/-- Outcome of `handle_slider`: a sent control-change, a silent early
return (no arguments or no MIDI output), or a caught ValueError reported
as a bad-argument message. -/
inductive SliderResult
  | sent (msg : MidiCC)
  | ignored
  | badArg
deriving DecidableEq

/-- `handle_slider(address, *args)`: with no arguments return early;
otherwise parse the last address segment as the slider id and send
controller `id` with value `int(float(args[0]) * 127)`. Both a failing
`int()` parse and a range violation raised by the message constructor land
in the same `except (ValueError, IndexError)` clause of the handler and
are reported as the bad-argument error, with no send. -/
def handle_slider (address : PyStr) (args : List ℚ) : SliderResult :=
  match args with
  | [] => SliderResult.ignored
  | v :: _ =>
    match pyInt (lastSegment address) with
    | none => SliderResult.badArg
    | some n =>
      match midoMessageCC 0 n (pyTrunc (v * 127)) with
      | some msg => SliderResult.sent msg
      | none => SliderResult.badArg

end OscToMidi


/-! Helper lemmas shared by the claim theorems. -/

theorem ratFloor_eq (q : ℚ) : q.floor = ⌊q⌋ :=
  (Rat.floor_def' q).trans Rat.floor_def.symm

theorem pyTrunc_eq_floor (q : ℚ) (h : 0 ≤ q) : pyTrunc q = ⌊q⌋ := by
  rw [pyTrunc, if_pos h, ratFloor_eq]

theorem findNul_le (data : List Nat) (offset n : Nat)
    (h : OscTransport.findNul data offset = some n) : offset ≤ n := by
  unfold OscTransport.findNul at h
  obtain ⟨i, -, hfi⟩ := Option.map_eq_some'.mp h
  omega

theorem oscPad_mod (len : Nat) : (len + 1 + OscTransport.oscPad len) % 4 = 0 := by
  unfold OscTransport.oscPad
  split <;> omega

theorem parseArgs_consume (tags : List Char) (data : List Nat) : ∀ offset : Nat,
    (OscTransport.parseArgs tags data offset).2 =
      offset + 4 * (OscTransport.parseArgs tags data offset).1.length := by
  induction tags with
  | nil => intro offset; simp [OscTransport.parseArgs]
  | cons t ts ih =>
    intro offset
    simp only [OscTransport.parseArgs]
    split
    · split
      · simp only [List.length_cons]
        rw [ih (offset + 4)]
        ring
      · exact ih offset
    · split
      · split
        · simp only [List.length_cons]
          rw [ih (offset + 4)]
          ring
        · exact ih offset
      · exact ih offset

/-- C4: whenever `parse_osc_string` finds a NUL terminator, the total
number of bytes it consumes (string, NUL and padding, i.e. the returned
offset minus the start offset) is a positive multiple of 4. -/
theorem c4_padding_law (data : List Nat) (offset : Nat) (s : PyStr) (off2 : Nat)
    (h : OscTransport.parse_osc_string data offset = (some s, off2)) :
    (off2 - offset) % 4 = 0 ∧ offset < off2 := by
  unfold OscTransport.parse_osc_string at h
  cases hfn : OscTransport.findNul data offset with
  | none =>
    rw [hfn] at h
    simp at h
  | some endPos =>
    rw [hfn] at h
    simp only [Prod.mk.injEq, Option.some.injEq] at h
    obtain ⟨-, hoff⟩ := h
    have hle : offset ≤ endPos := findNul_le data offset endPos hfn
    have hm := oscPad_mod (endPos - offset)
    omega

/-- C4 witness: at buffer `"/x\x00\x00"` and start offset 0 the string is
found and exactly 4 bytes are consumed. -/
theorem c4_padding_law_witness : (4 - 0) % 4 = 0 ∧ 0 < 4 :=
  c4_padding_law [47, 120, 0, 0] 0 (pyStr "/x") 4 (by decide)

/-- C5: in the argument loop, tag `i` with 4 bytes available consumes
exactly those 4 bytes as a big-endian signed int32, tag `f` consumes them
as a big-endian float32 (carried by its bit pattern), any other tag
consumes no bytes and contributes no argument; globally the bytes consumed
equal 4 per produced argument. -/
theorem c5_tag_semantics (t : Char) (ts : List Char) (data : List Nat) (offset : Nat) :
    (t = 'i' → offset + 4 ≤ data.length →
      OscTransport.parseArgs (t :: ts) data offset =
        (OscTransport.OscArg.Int32 (OscTransport.int32be data offset) ::
            (OscTransport.parseArgs ts data (offset + 4)).1,
          (OscTransport.parseArgs ts data (offset + 4)).2))
    ∧ (t = 'f' → offset + 4 ≤ data.length →
      OscTransport.parseArgs (t :: ts) data offset =
        (OscTransport.OscArg.Float32 (OscTransport.word32be data offset) ::
            (OscTransport.parseArgs ts data (offset + 4)).1,
          (OscTransport.parseArgs ts data (offset + 4)).2))
    ∧ (t ≠ 'i' → t ≠ 'f' →
      OscTransport.parseArgs (t :: ts) data offset = OscTransport.parseArgs ts data offset)
    ∧ (∀ tags : List Char, (OscTransport.parseArgs tags data offset).2 =
        offset + 4 * (OscTransport.parseArgs tags data offset).1.length) := by
  refine ⟨?_, ?_, ?_, fun tags => parseArgs_consume tags data offset⟩
  · intro ht hroom
    subst ht
    simp [OscTransport.parseArgs, hroom]
  · intro ht hroom
    subst ht
    simp [OscTransport.parseArgs, hroom]
  · intro ht hf
    simp [OscTransport.parseArgs, ht, hf]

/-- C5 witness: tag `i` over the 4 bytes 0,0,0,5 yields the int argument 5
having consumed all 4 bytes; an unknown tag `x` consumes nothing. -/
theorem c5_tag_semantics_witness :
    OscTransport.parseArgs ['i'] [0, 0, 0, 5] 0 = ([OscTransport.OscArg.Int32 5], 4)
    ∧ OscTransport.parseArgs ['x'] [0, 0, 0, 5] 0 = ([], 0) := by
  constructor
  · exact ((c5_tag_semantics 'i' [] [0, 0, 0, 5] 0).1 rfl (by decide)).trans (by decide)
  · exact ((c5_tag_semantics 'x' [] [0, 0, 0, 5] 0).2.2.1 (by decide) (by decide)).trans (by decide)

/-- C6: once fewer than 4 bytes remain, the argument loop appends no
further arguments (for any remaining type-tag characters) and leaves the
offset unchanged; decoding still succeeds, returning the arguments decoded
so far, as on the concrete buffer `"/a\x00\x00,ii\x00"` followed by only
one 4-byte argument. -/
theorem c6_partial_arguments (tags : List Char) (data : List Nat) (offset : Nat)
    (h : data.length < offset + 4) :
    OscTransport.parseArgs tags data offset = ([], offset)
    ∧ OscTransport.parse_osc_message [47, 97, 0, 0, 44, 105, 105, 0, 0, 0, 0, 5]
        = some (pyStr "/a", [OscTransport.OscArg.Int32 5]) := by
  constructor
  · induction tags with
    | nil => simp [OscTransport.parseArgs]
    | cons t ts ih =>
      have hroom : ¬ (offset + 4 ≤ data.length) := by omega
      simp only [OscTransport.parseArgs, if_neg hroom, ite_self]
      exact ih
  · decide

/-- C6 witness: a type tag demanding two arguments over an empty payload
yields no arguments and an unchanged offset. -/
theorem c6_partial_arguments_witness :
    OscTransport.parseArgs ['i', 'f'] [] 0 = ([], 0) :=
  (c6_partial_arguments ['i', 'f'] [] 0 (by decide)).1

/-- C8: decoding a zero-length buffer, and decoding the buffer containing
only the bytes of `"/x"` with no NUL terminator, both return the decode
failure result (the total Lean function models absence of an unhandled
exception). -/
theorem c8_malformed_buffers :
    OscTransport.parse_osc_message [] = none
    ∧ OscTransport.parse_osc_message [47, 120] = none := by
  decide

/-- C1 counterexample: in the keystroke backend the decoded address
`/transport/deep/play`, whose remainder after the fixed prefix contains a
further slash, still matches the transport route and fires the `play`
keystroke (the claim says no transport action is fired for it). -/
theorem c1_counterexample :
    OscTransport.dispatch (pyStr "/transport/deep/play") [(127 : ℚ)] =
      OscTransport.DispatchResult.keystroke (pyStr "space") false := by
  decide

/-- C1 (amended): the keystroke backend routes by the fixed prefix
`/transport/` alone and the captured action key is the last path segment,
so every address with that prefix is handled (never reported as
unhandled); `/transport/play` captures `play`, and the nested
`/transport/deep/play` also matches, capturing `play`, so a transport
action is fired for it as well. -/
theorem c1_prefix_routing (address : PyStr) (args : List ℚ)
    (h : (pyStr "/transport/").isPrefixOf address = true) :
    OscTransport.dispatch address args ≠ OscTransport.DispatchResult.unhandled
    ∧ lastSegment (pyStr "/transport/play") = pyStr "play"
    ∧ lastSegment (pyStr "/transport/deep/play") = pyStr "play"
    ∧ OscTransport.dispatch (pyStr "/transport/play") [(127 : ℚ)] =
        OscTransport.DispatchResult.keystroke (pyStr "space") false := by
  refine ⟨?_, by decide, by decide, by decide⟩
  unfold OscTransport.dispatch
  rw [if_pos h]
  cases OscTransport.handle_transport (lastSegment address) (args.headD 127) <;> simp

/-- C1 witness: the amended routing at the concrete address
`/transport/play` with no arguments. -/
theorem c1_prefix_routing_witness :
    OscTransport.dispatch (pyStr "/transport/play") [] ≠
      OscTransport.DispatchResult.unhandled :=
  (c1_prefix_routing (pyStr "/transport/play") [] (by decide)).1

/-- C2 counterexample: in the MIDI backend, `/transport/stop` with value 0
still produces an actuator call (a control-change on controller 118 with
value 0), against the claimed value > 0 gating. -/
theorem c2_counterexample :
    OscToMidi.handle_transport (pyStr "/transport/stop") [(0 : ℚ)] =
      OscToMidi.TransportResult.sent ⟨0, 118, 0⟩ := by
  decide

/-- C2 (amended): the value > 0 gating holds in the keystroke backend
only: there, for every action in the transport table, value 0 produces no
keystroke, value 127 produces exactly one, and in general the keystroke
fires exactly when the value is positive. (The MIDI backend sends the
control-change regardless of the value, as the counterexample shows.) -/
theorem c2_keystroke_gating (action : PyStr) (eff : PyStr × Bool) (value : ℚ)
    (h : OscTransport.TRANSPORT_MAP.lookup action = some eff) :
    OscTransport.handle_transport action 0 = none
    ∧ OscTransport.handle_transport action 127 = some eff
    ∧ (OscTransport.handle_transport action value = some eff ↔ 0 < value) := by
  simp only [OscTransport.handle_transport, h]
  refine ⟨if_neg (lt_irrefl 0), if_pos (by norm_num), ?_⟩
  by_cases hv : 0 < value
  · simp [hv]
  · simp [hv]

/-- C2 witness: the keystroke gating at the concrete action `stop`. -/
theorem c2_keystroke_gating_witness :
    OscTransport.handle_transport (pyStr "stop") 0 = none
    ∧ OscTransport.handle_transport (pyStr "stop") 127 = some (pyStr ".", false) :=
  ⟨(c2_keystroke_gating (pyStr "stop") (pyStr ".", false) 127 (by decide)).1,
   (c2_keystroke_gating (pyStr "stop") (pyStr ".", false) 127 (by decide)).2.1⟩

/-- C3 counterexample: the buffer `"/a\x00\x00,i"` has a well-formed
address followed by a type tag with no NUL terminator, yet decode does not
fail: it returns the address with an empty argument list (the claim says
decode fails with a DecodeError variant). -/
theorem c3_counterexample :
    OscTransport.parse_osc_message [47, 97, 0, 0, 44, 105] = some (pyStr "/a", [])
    ∧ OscTransport.parse_osc_message [47, 97, 0, 0, 44, 105] ≠ none := by
  decide

/-- C3 (amended): for every buffer whose address parses (starting with a
slash) with bytes remaining but no NUL terminator among them (a truncated
type tag), decode does not fail and does not throw: it returns the address
with an empty argument list. -/
theorem c3_truncated_typetag (data : List Nat) (address : PyStr) (offset : Nat)
    (h1 : OscTransport.parse_osc_string data 0 = (some address, offset))
    (h2 : (pyStr "/").isPrefixOf address = true)
    (h3 : offset < data.length)
    (h4 : OscTransport.findNul data offset = none) :
    OscTransport.parse_osc_message data = some (address, []) := by
  have hne : address ≠ [] := by
    intro hnil
    rw [hnil] at h2
    simp [pyStr, List.isPrefixOf] at h2
  unfold OscTransport.parse_osc_message
  simp only [h1]
  rw [if_neg (by simp [hne, h2]), if_neg (by omega)]
  unfold OscTransport.parse_osc_string
  simp only [h4]

/-- C3 witness: the amended statement at the concrete truncated buffer
`"/a\x00\x00,i"`. -/
theorem c3_truncated_typetag_witness :
    OscTransport.parse_osc_message [47, 97, 0, 0, 44, 105] = some (pyStr "/a", ([] : List OscTransport.OscArg)) :=
  c3_truncated_typetag [47, 97, 0, 0, 44, 105] (pyStr "/a") 4
    (by decide) (by decide) (by decide) (by decide)

/-- C7 counterexample: the address `/slider/200`, whose last segment
parses as the integer 200, with first argument 0 in `[0, 1]`: the message
constructor rejects controller 200 (ValueError, caught as the bad-argument
report) and nothing is sent, against the claimed emitted control-change
with controller 200 and value `floor(0 * 127) = 0`. -/
theorem c7_counterexample :
    OscToMidi.handle_slider (pyStr "/slider/200") [(0 : ℚ)] = OscToMidi.SliderResult.badArg
    ∧ OscToMidi.SliderResult.badArg ≠ OscToMidi.SliderResult.sent ⟨0, 200, 0⟩ := by
  constructor
  · have h200 : pyInt (lastSegment (pyStr "/slider/200")) = some 200 := by decide
    have hv : pyTrunc ((0 : ℚ) * 127) = 0 := by
      rw [zero_mul, pyTrunc_eq_floor 0 le_rfl, Int.floor_zero]
    simp only [OscToMidi.handle_slider, h200, hv, OscToMidi.midoMessageCC]
    rw [if_neg (by decide)]
  · decide

/-- C7 (amended): for every `/slider/<id>` message whose last address
segment parses as an integer `n` within the controller range 0..127 and
whose first argument is `v` in `[0, 1]`, the emitted control-change has
controller `n` and value `floor(v * 127)`, which lies in `[0, 127]`; in
particular `v = 1/2` on `/slider/10` yields controller 10 with value 63,
and `v = 1` yields value 127. (An id outside 0..127 is rejected by the
message constructor and reported as a bad argument with no send, as the
counterexample shows.) -/
theorem c7_slider_scaling (address : PyStr) (n : Int) (v : ℚ) (rest : List ℚ)
    (hn : pyInt (lastSegment address) = some n) (hn0 : 0 ≤ n) (hn127 : n ≤ 127)
    (h0 : 0 ≤ v) (h1 : v ≤ 1) :
    OscToMidi.handle_slider address (v :: rest) =
      OscToMidi.SliderResult.sent ⟨0, n, ⌊v * 127⌋⟩
    ∧ 0 ≤ ⌊v * 127⌋ ∧ ⌊v * 127⌋ ≤ 127
    ∧ OscToMidi.handle_slider (pyStr "/slider/10") [(1 : ℚ)/2] =
        OscToMidi.SliderResult.sent ⟨0, 10, 63⟩
    ∧ OscToMidi.handle_slider (pyStr "/slider/10") [(1 : ℚ)] =
        OscToMidi.SliderResult.sent ⟨0, 10, 127⟩ := by
  have h10 : pyInt (lastSegment (pyStr "/slider/10")) = some 10 := by decide
  have hval : pyTrunc (v * 127) = ⌊v * 127⌋ := pyTrunc_eq_floor _ (by positivity)
  have hb0 : 0 ≤ ⌊v * 127⌋ := Int.floor_nonneg.mpr (by positivity)
  have hb127 : ⌊v * 127⌋ ≤ 127 := by
    calc ⌊v * 127⌋ ≤ ⌊(127 : ℚ)⌋ := Int.floor_mono (by nlinarith)
      _ = 127 := by norm_num
  refine ⟨?_, hb0, hb127, ?_, ?_⟩
  · simp only [OscToMidi.handle_slider, hn, hval, OscToMidi.midoMessageCC]
    rw [if_pos ⟨le_rfl, by norm_num, hn0, hn127, hb0, hb127⟩]
  · have hv : pyTrunc ((1 : ℚ)/2 * 127) = 63 := by
      rw [pyTrunc_eq_floor _ (by norm_num), Int.floor_eq_iff]
      norm_num
    simp only [OscToMidi.handle_slider, h10, hv, OscToMidi.midoMessageCC]
    rw [if_pos (by decide)]
  · have hv : pyTrunc ((1 : ℚ) * 127) = 127 := by
      rw [pyTrunc_eq_floor _ (by norm_num)]
      norm_num
    simp only [OscToMidi.handle_slider, h10, hv, OscToMidi.midoMessageCC]
    rw [if_pos (by decide)]

/-- C7 witness: the amended slider scaling at the concrete message
`/slider/10` with argument 1. -/
theorem c7_slider_scaling_witness :
    OscToMidi.handle_slider (pyStr "/slider/10") [(1 : ℚ)] =
      OscToMidi.SliderResult.sent ⟨0, 10, 127⟩ :=
  (c7_slider_scaling (pyStr "/slider/10") 10 1 [] (by decide) (by decide) (by decide)
    zero_le_one le_rfl).2.2.2.2

/-- C9 counterexample: a `/slider/<id>` message carrying no arguments is
silently ignored by the early return and is not reported as a
bad-argument signal, against the claim that such failures are so
reported. -/
theorem c9_counterexample :
    OscToMidi.handle_slider (pyStr "/slider/5") [] = OscToMidi.SliderResult.ignored
    ∧ OscToMidi.SliderResult.ignored ≠ OscToMidi.SliderResult.badArg := by
  decide

/-- C9 (amended): a `/slider/<segment>` message whose last segment does
not parse as an integer performs no control-change send and is reported as
a bad-argument signal; a message carrying no arguments performs no send
either but is silently ignored without a bad-argument report; neither case
raises (the handler is total). -/
theorem c9_bad_arguments (address : PyStr) (v : ℚ) (rest : List ℚ)
    (h : pyInt (lastSegment address) = none) :
    OscToMidi.handle_slider address (v :: rest) = OscToMidi.SliderResult.badArg
    ∧ OscToMidi.handle_slider address [] = OscToMidi.SliderResult.ignored := by
  constructor
  · simp only [OscToMidi.handle_slider, h]
  · simp only [OscToMidi.handle_slider]

/-- C9 witness: the amended statement at the concrete address
`/slider/abc`. -/
theorem c9_bad_arguments_witness :
    OscToMidi.handle_slider (pyStr "/slider/abc") [(0 : ℚ)] = OscToMidi.SliderResult.badArg
    ∧ OscToMidi.handle_slider (pyStr "/slider/abc") [] = OscToMidi.SliderResult.ignored :=
  c9_bad_arguments (pyStr "/slider/abc") 0 [] (by decide)

/-- C10: in the keystroke backend, a decoded `/transport/<action>` message
with zero arguments whose action is in the transport table defaults the
value to 127, firing the keystroke exactly as if the sender had supplied
value 127. -/
theorem c10_default_value (address : PyStr) (eff : PyStr × Bool)
    (hpre : (pyStr "/transport/").isPrefixOf address = true)
    (h : OscTransport.TRANSPORT_MAP.lookup (lastSegment address) = some eff) :
    OscTransport.dispatch address [] = OscTransport.DispatchResult.keystroke eff.1 eff.2
    ∧ OscTransport.dispatch address [] = OscTransport.dispatch address [(127 : ℚ)] := by
  have hfire : OscTransport.handle_transport (lastSegment address) 127 = some eff := by
    simp only [OscTransport.handle_transport, h]
    exact if_pos (by norm_num)
  have hd : ∀ args : List ℚ, args.headD 127 = 127 →
      OscTransport.dispatch address args = OscTransport.DispatchResult.keystroke eff.1 eff.2 := by
    intro args hargs
    unfold OscTransport.dispatch
    rw [if_pos hpre, hargs, hfire]
  exact ⟨hd [] rfl, (hd [] rfl).trans (hd [(127 : ℚ)] rfl).symm⟩

/-- C10 witness: the zero-argument default at the concrete address
`/transport/play`. -/
theorem c10_default_value_witness :
    OscTransport.dispatch (pyStr "/transport/play") [] =
      OscTransport.DispatchResult.keystroke (pyStr "space") false :=
  (c10_default_value (pyStr "/transport/play") (pyStr "space", false)
    (by decide) (by decide)).1
